import Mathlib

/-!
# Verification of the gigi FastCGI raster subsetter request engine

Shallow embedding of the request-handling core of `src/gigi.cpp` (the
second, current revision in that file, lines 216-683): bounding-box
parsing (`parse_bbox`), output-size negotiation, the single-slot dataset
cache (`struct gdataset`), configuration (`State::configure` /
`realmain`), and the validation/dispatch logic of `get_image`.

Modelling conventions:
* C `double` values are modelled as exact rationals (`ℚ`).  Every input
  exercised below is a short decimal that a `double` represents exactly,
  and the operations used (comparison, subtraction by integers,
  truncation) are exact on such values.
* C `int` / `unsigned` arithmetic is modelled on `ℤ` / `ℕ` with explicit
  reduction mod `2^32` where the source can overflow (`sscanf %u`).
* The external raster library (GDAL) is a parameter: a `world` function
  `String → Option Raster` says which paths open and with which pixel
  dimensions.  Open/close side effects are recorded as an event trace so
  that cache reuse and close-before-open order are observable.
* `GDALTranslate` itself is external; the model records the exact
  arguments handed to it (output size and crop window) in the `Outcome`.
-/

namespace Gigi

/-! ## Character-level parsing model

`parse_bbox` calls `CPLStrtod(bb, &bb)` (GDAL `cpl_strtod.cpp`), which
defers to C `strtod` on the decimal fragment of the grammar.  `get_image`
parses the `size` parameter with `sscanf(s, "%u,%u", ...)`.  Both are
modelled here on `List Char`. -/

/-- Characters accepted by C `isspace` in the POSIX locale. -/
def isCSpace (c : Char) : Bool :=
  c == ' ' || c == '\t' || c == '\n' || c == '\r' || c == '\x0b' || c == '\x0c'

/-- Longest run of decimal digits at the head of the input, and the rest. -/
def span_digits : List Char → List Char × List Char
  | [] => ([], [])
  | c :: cs =>
    if c.isDigit then
      let p := span_digits cs
      (c :: p.1, p.2)
    else ([], c :: cs)

/-- Value of a digit string, most significant first. -/
def digitsVal (l : List Char) : Nat :=
  l.foldl (fun a c => 10 * a + (c.toNat - 48)) 0

/-- Optional exponent part of a C float literal (`e`/`E`, optional sign,
digits).  If the exponent is absent or incomplete it is not consumed,
exactly as in `strtod`. -/
def parseExp (s : List Char) : Int × List Char :=
  match s with
  | [] => (0, [])
  | c :: r =>
    if c = 'e' ∨ c = 'E' then
      let sp : Int × List Char :=
        match r with
        | '-' :: rr => (-1, rr)
        | '+' :: rr => (1, rr)
        | _ => (1, r)
      let dr := span_digits sp.2
      if dr.1 = [] then (0, c :: r) else (sp.1 * (digitsVal dr.1 : Int), dr.2)
    else (0, c :: r)

/-- Model of `CPLStrtod(bb, &bb)` (GDAL `cpl_strtod.cpp`), which defers to
C `strtod` on the decimal fragment of the grammar: optional whitespace,
optional sign, digits with optional decimal point and optional exponent.
On success it returns the value and the rest of the input after the
parsed number.  When no conversion can be performed it returns `0` with
the input unchanged; glibc `strtod` leaves `errno` untouched in that
case, and since `parse_bbox` clears `errno` on entry and overflow
(`ERANGE`) cannot occur in this exact-rational model, the `errno` test in
`parse_bbox` never fires and is therefore not represented.  The special
forms `inf`/`nan`/hex handled by `strtod` and the `1.#QNAN`-style strings
pre-handled by `CPLStrtod` are outside the modelled fragment; no input
considered in this development uses them. -/
def strtodM (s : List Char) : ℚ × List Char :=
  let t := s.dropWhile isCSpace
  let sp : Int × List Char :=
    match t with
    | '-' :: r => (-1, r)
    | '+' :: r => (1, r)
    | _ => (1, t)
  let ipr := span_digits sp.2
  let fpr : List Char × List Char :=
    match ipr.2 with
    | '.' :: r => span_digits r
    | _ => ([], ipr.2)
  if ipr.1 = [] ∧ fpr.1 = [] then (0, s)
  else
    let er := parseExp fpr.2
    -- value = sign * (ipart.fpart) * 10^exp, assembled as one exact fraction
    let mantNum : Int :=
      sp.1 * ((digitsVal ipr.1 * 10 ^ fpr.1.length + digitsVal fpr.1 : Nat) : Int)
    let v : ℚ :=
      if 0 ≤ er.1 then mkRat (mantNum * 10 ^ er.1.toNat) (10 ^ fpr.1.length)
      else mkRat mantNum (10 ^ fpr.1.length * 10 ^ (-er.1).toNat)
    (v, er.2)

/-- Model of one `sscanf` `%u` conversion: optional whitespace, optional
sign, decimal digits, value reduced mod `2^32` (negated first for a
leading minus, as `%u` converts through `strtoul`). -/
def scan_u (s : List Char) : Option (Nat × List Char) :=
  let t := s.dropWhile isCSpace
  let sp : Bool × List Char :=
    match t with
    | '-' :: r => (true, r)
    | '+' :: r => (false, r)
    | _ => (false, t)
  let dr := span_digits sp.2
  if dr.1 = [] then none
  else
    let v := digitsVal dr.1 % 2 ^ 32
    some ((if sp.1 then (2 ^ 32 - v) % 2 ^ 32 else v), dr.2)

/-- Reinterpret an unsigned 32-bit value as the signed `int` it is stored
into (`xsz`/`ysz` in `get_image` are `int` variables filled by `%u`). -/
def toInt32 (n : Nat) : Int :=
  if n < 2 ^ 31 then (n : Int) else (n : Int) - 2 ^ 32

/-- Model of `sscanf(s, "%u,%u", &xsz, &ysz) == 2` (src/gigi.cpp:469):
`some (x, y)` when both conversions succeed with a literal comma between
them (trailing input is ignored), `none` otherwise. -/
def sscanf_u2 (s : List Char) : Option (Int × Int) :=
  match scan_u s with
  | none => none
  | some xr =>
    match xr.2 with
    | ',' :: r2 =>
      match scan_u r2 with
      | none => none
      | some yr => some (toInt32 xr.1, toInt32 yr.1)
    | _ => none

/-! ## The bounding box and `parse_bbox` (src/gigi.cpp:431-448) -/

/-- The four-slot `double bbox[4]` array. -/
structure BBox where
  b0 : ℚ
  b1 : ℚ
  b2 : ℚ
  b3 : ℚ
deriving DecidableEq, Repr

/-- Write slot `i` of the array (`bbox[i] = v`). -/
def BBox.set (b : BBox) (i : Nat) (v : ℚ) : BBox :=
  match i with
  | 0 => { b with b0 := v }
  | 1 => { b with b1 := v }
  | 2 => { b with b2 := v }
  | 3 => { b with b3 := v }
  | _ => b

/-- The caller-side initializer `double bbox[4] = { -180, -90, 180, 90 }`
(src/gigi.cpp:477). -/
def geoDefault : BBox := ⟨-180, -90, 180, 90⟩

/-- The `do { ... } while (i < 4 && *bb)` loop of `parse_bbox`
(src/gigi.cpp:435-441): skip one leading comma, convert with `CPLStrtod`,
store into slot `i`, increment, and continue while fewer than four values
were stored and input remains.  `fuel` is an upper bound on the remaining
iterations; called with `fuel = 4` it never runs out, because `i`
increases by one per iteration and the loop condition requires `i < 4`.
The `if (errno) return i` test never fires (see `strtodM`). -/
def parseLoop : Nat → Nat → List Char → BBox → Nat × BBox
  | 0, i, _, bbox => (i, bbox)
  | fuel + 1, i, bb0, bbox =>
    let bb := if bb0.head? = some ',' then bb0.tail else bb0
    let vr := strtodM bb
    let bbox1 := bbox.set i vr.1
    if i + 1 < 4 ∧ vr.2 ≠ [] then parseLoop fuel (i + 1) vr.2 bbox1 else (i + 1, bbox1)

/-- Translation of `parse_bbox` (src/gigi.cpp:431-448).  The array is
passed in (the C function mutates the caller's array, whose prior
contents survive in unwritten slots) and returned alongside the `int`
result: the stored count `i` when `i < 3`; otherwise, if the order check
`bbox[2] <= bbox[0] || bbox[3] <= bbox[1]` trips, the C `bool`-to-`int`
conversion of `bbox[2] <= bbox[0]` (so `1` for an X-order violation and
`0` for a Y-order-only violation); otherwise `4`. -/
def parse_bbox (s : List Char) (bbox : BBox) : Nat × BBox :=
  let r := parseLoop 4 0 s bbox
  if r.1 < 3 then r
  else if r.2.b2 ≤ r.2.b0 ∨ r.2.b3 ≤ r.2.b1 then
    ((if r.2.b2 ≤ r.2.b0 then 1 else 0), r.2)
  else (4, r.2)

/-! ## The single-slot dataset cache `struct gdataset` (src/gigi.cpp:255-280) -/

/-- What the raster library reports for an opened dataset:
`GetRasterXSize` / `GetRasterYSize` (C `int`). -/
structure Raster where
  xsize : Int
  ysize : Int
deriving DecidableEq, Repr

/-- Observable side effects on the raster library: `GDALClose` of the
handle opened from path `p`, and a `GDALDataset::Open` attempt on path
`p` whose success flag is `ok`. -/
inductive DsEv where
  | close (p : String)
  | openAttempt (p : String) (ok : Bool)
deriving DecidableEq, Repr

/-- `struct gdataset`: `pds` is the open handle (`none` = null), `name`
the path last passed to `open`, `type` the mode tag (`0` single,
nonzero dynamic). -/
structure Gdataset where
  pds : Option Raster
  name : String
  type : Nat
deriving DecidableEq, Repr

/-- `gdataset::clear` (src/gigi.cpp:268-275): close and null the handle
and erase the name, but only when a handle is live. -/
def Gdataset.clear (g : Gdataset) : Gdataset × List DsEv :=
  if g.pds.isSome then ({ g with pds := none, name := "" }, [DsEv.close g.name])
  else (g, [])

/-- `gdataset::open` (src/gigi.cpp:257-266).  Same path: return with no
side effect (C returns `pds != nullptr`).  Different path: `clear()`,
record the new name, attempt the open, store the result.  The C return
value equals `pds != nullptr` on the post-state in both branches, so
callers here test `.pds` of the returned state. -/
def Gdataset.openDS (world : String → Option Raster) (g : Gdataset) (f : String) :
    Gdataset × List DsEv :=
  if f = g.name then (g, [])
  else
    let c := g.clear
    let pds := world f
    ({ c.1 with name := f, pds := pds }, c.2 ++ [DsEv.openAttempt f pds.isSome])

/-- Run a sequence of `gdataset::open` calls, concatenating the event
traces. -/
def openSeq (world : String → Option Raster) : Gdataset → List String → Gdataset × List DsEv
  | g, [] => (g, [])
  | g, f :: fs =>
    let o := Gdataset.openDS world g f
    let rest := openSeq world o.1 fs
    (rest.1, o.2 ++ rest.2)

/-- Contribution of one event to the number of live raster handles. -/
def liveDelta : DsEv → Int
  | DsEv.close _ => -1
  | DsEv.openAttempt _ ok => if ok then 1 else 0

/-- Net change in the number of live raster handles over a trace. -/
def liveCount (l : List DsEv) : Int := (l.map liveDelta).sum

/-- Number of handles held by a `gdataset` value (0 or 1 by type). -/
def handles (g : Gdataset) : Int := if g.pds.isSome then 1 else 0

/-! ## Server state, configuration, and `get_image` -/

/-- `struct Dynconf` (src/gigi.cpp:249-252); the C fields `prefix` and
`suffix` are named `pre` and `suf` here. -/
structure Dynconf where
  pre : String
  suf : String
deriving DecidableEq, Repr

/-- The parts of `class State` the request logic reads and writes:
the dataset slot and the dynamic-mode configuration. -/
structure ServerState where
  dataset : Gdataset
  dynconf : Dynconf
deriving DecidableEq, Repr

/-- The configuration keys `State::configure` reads
(`CSLFetchNameValueDef` with default `""`). -/
structure Config where
  filename : String
  dpre : String
  dsuf : String
deriving DecidableEq, Repr

/-- A fresh `State` (src/gigi.cpp:256,286): null handle, empty name,
type 0, empty dynamic configuration. -/
def initState : ServerState := ⟨⟨none, "", 0⟩, ⟨"", ""⟩⟩

/-- `State::configure` (src/gigi.cpp:351-368): a nonempty `Filename`
selects Single mode and opens it at once, failing if the open fails;
otherwise dynamic mode is assumed (`type = 1`) and the prefix/suffix are
recorded, always succeeding. -/
def configure (world : String → Option Raster) (cfg : Config) (st : ServerState) :
    ServerState × Bool :=
  if cfg.filename ≠ "" then
    let od := Gdataset.openDS world st.dataset cfg.filename
    ({ st with dataset := od.1 }, od.1.pds.isSome)
  else
    ({ st with dataset := { st.dataset with type := 1 },
               dynconf := ⟨cfg.dpre, cfg.dsuf⟩ }, true)

/-- Whether startup reaches the accept loop.  `realmain`
(src/gigi.cpp:650-655) returns 1 immediately when `configure` fails, so
the process terminates before any request is accepted. -/
inductive StartupResult where
  | exited (code : Nat)
  | serving (st : ServerState)
deriving DecidableEq, Repr

/-- The startup prefix of `realmain` (src/gigi.cpp:650-655): configure
from a fresh `State`; on failure exit with code 1 before the accept
loop, otherwise start serving with the configured state. -/
def realmainStartup (world : String → Option Raster) (cfg : Config) : StartupResult :=
  let c := configure world cfg initState
  if c.2 then StartupResult.serving c.1 else StartupResult.exited 1

/-- The request parameters `get_image` reads, as `cgi("...")` strings;
`[]` models the empty string returned for an absent parameter. -/
structure Req where
  size : List Char
  bbox : List Char
  id : List Char
deriving DecidableEq, Repr

/-- Crop window handed to `GDALTranslate`: `-projwin ulx uly lrx lry`
in Single mode (src/gigi.cpp:498-502), `-srcwin x y w h` in dynamic mode
(src/gigi.cpp:560-564). -/
inductive WindowSpec where
  | projwin (ulx uly lrx lry : ℚ)
  | srcwin (x y w h : ℚ)
deriving DecidableEq, Repr

/-- Result of one `get_image` call: an error page produced through
`ret_error`, or the success path, which hands `-outsize xsz ysz` and the
crop window to `GDALTranslate` and emits the 200 response.  The external
translate/encode step itself is outside the model; `ok` records exactly
the arguments the source passes to it. -/
inductive Outcome where
  | err (code : Nat) (msg : String)
  | ok (xsz ysz : Int) (win : WindowSpec)
deriving DecidableEq, Repr

/-- The `html_errors` map (src/gigi.cpp:376-380). -/
def html_errors (code : Nat) : Option String :=
  if code = 400 then some "Bad Request"
  else if code = 404 then some "Not Found"
  else if code = 500 then some "Internal Server error"
  else none

/-- `ret_error` (src/gigi.cpp:382-403): a code absent from `html_errors`
is mapped to 404 before the status line is emitted.  The C parameter
`code` has default argument 404; call sites that rely on the default
pass 404 explicitly here. -/
def ret_error (msg : String) (code : Nat) : Outcome :=
  Outcome.err (if (html_errors code).isSome then code else 404) msg

/-- `if (xsz > 2048 || ysz > 2048) xsz = ysz = 1024;`
(src/gigi.cpp:472-474). -/
def clampSize (w h : Int) : Int × Int :=
  if w > 2048 ∨ h > 2048 then (1024, 1024) else (w, h)

/-- C `static_cast<int>` on a `double`: truncation toward zero. -/
def truncQ (q : ℚ) : Int := if q < 0 then ⌈q⌉ else ⌊q⌋

/-- The `for` loop `bbox[i] = static_cast<int>(bbox[i])`
(src/gigi.cpp:548-549); the truncated values are stored back into the
`double` array. -/
def truncBBox (b : BBox) : BBox :=
  ⟨(truncQ b.b0 : ℚ), (truncQ b.b1 : ℚ), (truncQ b.b2 : ℚ), (truncQ b.b3 : ℚ)⟩

/-- Translation of `get_image` (src/gigi.cpp:450-596), non-verbose path.
Returns the post-request server state, the outcome, and the dataset
event trace.  Control flow follows the source line by line: mandatory
`size`, `sscanf "%u,%u"`, the all-or-nothing clamp, the bbox default and
`parse_bbox`, then the mode dispatch on `dataset.type`; the dynamic
branch requires a nonempty configured prefix and a nonempty `ID`,
resolves `prefix + ID + suffix` through the cache, replaces the bbox
with the pixel extent when `bbox[0] == -180 && bbox[1] == 180`,
truncates all four components, range-checks them against the raster
size, and hands `-srcwin bbox[0] (ysize-bbox[3]) (bbox[2]-bbox[0])
(bbox[3]-bbox[1])` to the translator. -/
def get_image (world : String → Option Raster) (st : ServerState) (r : Req) :
    ServerState × Outcome × List DsEv :=
  if r.size = [] then (st, ret_error "Missing size parameter" 404, [])
  else
    match sscanf_u2 r.size with
    | none => (st, ret_error "Can't parse size" 404, [])
    | some wh =>
      let sz := clampSize wh.1 wh.2
      if r.bbox ≠ [] ∧ (parse_bbox r.bbox geoDefault).1 ≠ 4 then
        (st, ret_error "Can't parse bbox" 404, [])
      else
        let bbox := if r.bbox = [] then geoDefault else (parse_bbox r.bbox geoDefault).2
        if st.dataset.type = 0 then
          (st, Outcome.ok sz.1 sz.2 (WindowSpec.projwin bbox.b0 bbox.b3 bbox.b2 bbox.b1), [])
        else if st.dynconf.pre ≠ "" then
          if r.id = [] then (st, ret_error "Missing ID element" 400, [])
          else
            let fname := st.dynconf.pre ++ String.mk r.id ++ st.dynconf.suf
            let od := Gdataset.openDS world st.dataset fname
            let st1 : ServerState := { st with dataset := od.1 }
            match od.1.pds with
            | none => (st1, ret_error "No such dataset" 404, od.2)
            | some ras =>
              let xsize := ras.xsize
              let ysize := ras.ysize
              let bbox1 := if bbox.b0 = -180 ∧ bbox.b1 = 180 then
                  ⟨0, 0, (xsize : ℚ), (ysize : ℚ)⟩ else bbox
              let t := truncBBox bbox1
              if t.b0 < 0 ∨ t.b1 < 0 ∨ t.b2 > (xsize : ℚ) ∨ t.b3 > (ysize : ℚ) then
                (st1, ret_error "Malformed bbox" 400, od.2)
              else
                (st1, Outcome.ok sz.1 sz.2
                  (WindowSpec.srcwin t.b0 ((ysize : ℚ) - t.b3) (t.b2 - t.b0) (t.b3 - t.b1)),
                  od.2)
        else
          (st, ret_error "Configuration failure" 500, [])

end Gigi

namespace Gigi

/-! ## Helper lemmas -/

/-- The loop index of `parseLoop` grows by at most one per unit of fuel. -/
lemma parseLoop_fst_le (fuel : Nat) : ∀ i s b, (parseLoop fuel i s b).1 ≤ i + fuel := by
  induction fuel with
  | zero => intro i s b; simp [parseLoop]
  | succ n ih =>
    intro i s b
    simp only [parseLoop]
    split
    · split
      · rw [show i + (n + 1) = (i + 1) + n by omega]
        exact ih _ _ _
      · show i + 1 ≤ i + (n + 1)
        omega
    · split
      · rw [show i + (n + 1) = (i + 1) + n by omega]
        exact ih _ _ _
      · show i + 1 ≤ i + (n + 1)
        omega

/-- A prefix of an append splits at the boundary. -/
lemma isPre_append_split {α : Type} : ∀ {a p b : List α}, p <+: a ++ b →
    p <+: a ∨ ∃ q, p = a ++ q ∧ q <+: b := by
  intro a
  induction a with
  | nil => intro p b h; exact Or.inr ⟨p, rfl, h⟩
  | cons x a ih =>
    intro p b h
    cases p with
    | nil => exact Or.inl List.nil_prefix
    | cons y q =>
      rw [List.cons_append, List.cons_prefix_cons] at h
      obtain ⟨rfl, h2⟩ := h
      rcases ih h2 with h3 | ⟨r, rfl, hr⟩
      · exact Or.inl (List.cons_prefix_cons.mpr ⟨rfl, h3⟩)
      · exact Or.inr ⟨r, rfl, hr⟩

/-- Prefixes of a two-element list. -/
lemma isPre_pair {α : Type} {p : List α} {a b : α} (h : p <+: [a, b]) :
    p = [] ∨ p = [a] ∨ p = [a, b] := by
  cases p with
  | nil => exact Or.inl rfl
  | cons x q =>
    rw [List.cons_prefix_cons] at h
    obtain ⟨rfl, h2⟩ := h
    cases q with
    | nil => exact Or.inr (Or.inl rfl)
    | cons y r =>
      rw [List.cons_prefix_cons] at h2
      obtain ⟨rfl, h3⟩ := h2
      rw [List.eq_nil_of_prefix_nil h3]
      exact Or.inr (Or.inr rfl)

/-- Prefixes of a one-element list. -/
lemma isPre_one {α : Type} {p : List α} {a : α} (h : p <+: [a]) :
    p = [] ∨ p = [a] := by
  cases p with
  | nil => exact Or.inl rfl
  | cons x q =>
    rw [List.cons_prefix_cons] at h
    obtain ⟨rfl, h2⟩ := h
    rw [List.eq_nil_of_prefix_nil h2]
    exact Or.inr rfl

lemma liveCount_append (a b : List DsEv) : liveCount (a ++ b) = liveCount a + liveCount b := by
  simp [liveCount]

lemma liveCount_nil : liveCount [] = 0 := rfl

lemma handles_nonneg (g : Gdataset) : 0 ≤ handles g := by
  unfold handles; split <;> simp

lemma handles_le_one (g : Gdataset) : handles g ≤ 1 := by
  unfold handles; split <;> simp

/-- Closed form of the post-state of `gdataset::open`. -/
lemma openDS_fst (world : String → Option Raster) (g : Gdataset) (f : String) :
    (Gdataset.openDS world g f).1 = if f = g.name then g else ⟨world f, f, g.type⟩ := by
  cases g with
  | mk pds name ty =>
    unfold Gdataset.openDS Gdataset.clear
    by_cases h : f = name <;> cases pds <;> simp [h]

/-- Closed form of the event trace of `gdataset::open`. -/
lemma openDS_snd (world : String → Option Raster) (g : Gdataset) (f : String) :
    (Gdataset.openDS world g f).2 =
      if f = g.name then []
      else if g.pds.isSome then [DsEv.close g.name, DsEv.openAttempt f (world f).isSome]
      else [DsEv.openAttempt f (world f).isSome] := by
  cases g with
  | mk pds name ty =>
    unfold Gdataset.openDS Gdataset.clear
    by_cases h : f = name <;> cases pds <;> simp [h]

/-- One `open` call moves the live-handle count from `handles g` to
`handles` of the post-state. -/
lemma openDS_handles_total (world : String → Option Raster) (g : Gdataset) (f : String) :
    handles g + liveCount (Gdataset.openDS world g f).2 =
      handles (Gdataset.openDS world g f).1 := by
  rw [openDS_fst, openDS_snd]
  by_cases h : f = g.name
  · simp [h, liveCount]
  · by_cases hs : g.pds.isSome
    · by_cases hw : (world f).isSome <;>
        simp [h, hs, hw, liveCount, liveDelta, handles]
    · by_cases hw : (world f).isSome <;>
        simp [h, hs, hw, liveCount, liveDelta, handles]

/-- During one `open` call the live-handle count never leaves `[0, 1]`. -/
lemma openDS_live_bound (world : String → Option Raster) (g : Gdataset) (f : String)
    {p : List DsEv} (hp : p <+: (Gdataset.openDS world g f).2) :
    0 ≤ handles g + liveCount p ∧ handles g + liveCount p ≤ 1 := by
  rw [openDS_snd] at hp
  by_cases h : f = g.name
  · rw [if_pos h] at hp
    rw [List.eq_nil_of_prefix_nil hp]
    exact ⟨by simpa [liveCount] using handles_nonneg g,
           by simpa [liveCount] using handles_le_one g⟩
  · rw [if_neg h] at hp
    by_cases hs : g.pds.isSome
    · rw [if_pos hs] at hp
      rcases isPre_pair hp with rfl | rfl | rfl <;>
        by_cases hw : (world f).isSome <;>
          simp [liveCount, liveDelta, handles, hs, hw]
    · rw [if_neg hs] at hp
      rcases isPre_one hp with rfl | rfl <;>
        by_cases hw : (world f).isSome <;>
          simp [liveCount, liveDelta, handles, hs, hw]

/-- At every point of any sequence of `gdataset::open` calls, the number
of live raster handles stays between 0 and 1. -/
lemma openSeq_live_bound (world : String → Option Raster) :
    ∀ (fs : List String) (g : Gdataset) (p : List DsEv),
      p <+: (openSeq world g fs).2 →
      0 ≤ handles g + liveCount p ∧ handles g + liveCount p ≤ 1 := by
  intro fs
  induction fs with
  | nil =>
    intro g p hp
    simp only [openSeq] at hp
    rw [List.eq_nil_of_prefix_nil hp]
    exact ⟨by simpa [liveCount] using handles_nonneg g,
           by simpa [liveCount] using handles_le_one g⟩
  | cons f fs ih =>
    intro g p hp
    simp only [openSeq] at hp
    rcases isPre_append_split hp with h1 | ⟨q, rfl, hq⟩
    · exact openDS_live_bound world g f h1
    · rw [liveCount_append, ← add_assoc, openDS_handles_total]
      exact ih _ q hq

end Gigi

namespace Gigi

/-! ## Claim theorems -/

/-- Claim C1 (code bug evaluation).  In DynamicID mode, for a request
with no `bbox` parameter against a raster that opens as 100x100, the
default bbox `(-180,-90,180,90)` is NOT replaced by the pixel extent:
the guard at src/gigi.cpp:542 tests `bbox[1] == 180`, which the default
value `bbox[1] = -90` never satisfies (the sentinel `180` sits at
`bbox[2]`), so the untouched geographic default reaches the pixel range
check and the request is rejected with 400 "Malformed bbox" instead of
being served with bbox `(0,0,100,100)`. -/
theorem c1_dynamic_default_bbox_rejected :
    get_image (fun p => if p = "pA" then some ⟨100, 100⟩ else none)
        ⟨⟨none, "", 1⟩, ⟨"p", ""⟩⟩
        ⟨String.toList "512,512", [], String.toList "A"⟩ =
      (⟨⟨some ⟨100, 100⟩, "pA", 1⟩, ⟨"p", ""⟩⟩,
       Outcome.err 400 "Malformed bbox",
       [DsEv.openAttempt "pA" true]) := by
  decide

/-- Claim C3 (counterexample).  `parse_bbox("a,b")` does not return
count 0: glibc `strtod` performs no conversion on `"a"`, leaves `errno`
untouched and does not advance the pointer, so the loop stores `0` into
all four slots and the X-order check `bbox[2] <= bbox[0]` (0 <= 0)
converts to the return value 1. -/
theorem c3_parse_ab_returns_one :
    (parse_bbox (String.toList "a,b") geoDefault).1 = 1 ∧
    (parse_bbox (String.toList "a,b") geoDefault).1 ≠ 0 := by
  decide

/-- Claim C3 (amended).  `parse_bbox` always returns a value in 0..4, and
`parse("0,0,10,10")` yields the values `(0,0,10,10)` with count 4; but
parsing does not stop at the first malformed token: a token `strtod`
cannot convert yields value 0 without consuming input, so
`parse("a,b")` fills all four slots with 0 and returns the X-order
pseudo-count 1 rather than 0. -/
theorem c3_parse_bbox_count_amended :
    (∀ s b, (parse_bbox s b).1 ≤ 4) ∧
    parse_bbox (String.toList "0,0,10,10") geoDefault = (4, ⟨0, 0, 10, 10⟩) ∧
    parse_bbox (String.toList "a,b") geoDefault = (1, ⟨0, 0, 0, 0⟩) := by
  refine ⟨?_, by decide, by decide⟩
  intro s b
  have h := parseLoop_fst_le 4 0 s b
  unfold parse_bbox
  dsimp only
  split
  · omega
  · split
    · split <;> omega
    · omega

/-- Claim C7.  When the scanning loop has stored all four values, a box
violating `maxX > minX` or `maxY > minY` never yields 4: an X-order
violation yields the pseudo-count 1 and a Y-order-only violation yields
the pseudo-count 0 — two distinct non-4 failure values
(src/gigi.cpp:444-447). -/
theorem c7_order_check_distinct_failures :
    ∀ s b bb, parseLoop 4 0 s b = (4, bb) →
      (bb.b2 ≤ bb.b0 ∨ bb.b3 ≤ bb.b1 → (parse_bbox s b).1 ≠ 4) ∧
      (bb.b2 ≤ bb.b0 → (parse_bbox s b).1 = 1) ∧
      (bb.b0 < bb.b2 → bb.b3 ≤ bb.b1 → (parse_bbox s b).1 = 0) := by
  intro s b bb hr
  have h2 : bb.b2 ≤ bb.b0 → (parse_bbox s b).1 = 1 := by
    intro hx
    simp [parse_bbox, hr, hx]
  have h3 : ¬ bb.b2 ≤ bb.b0 → bb.b3 ≤ bb.b1 → (parse_bbox s b).1 = 0 := by
    intro hx hy
    simp [parse_bbox, hr, hx, hy]
  refine ⟨?_, h2, fun hlt hy => h3 (not_le.mpr hlt) hy⟩
  intro hor
  by_cases hx : bb.b2 ≤ bb.b0
  · rw [h2 hx]
    omega
  · rcases hor with hx2 | hy
    · exact absurd hx2 hx
    · rw [h3 hx hy]
      omega

/-- Claim C7 (witness).  `"10,0,0,10"` violates the X order and returns
1; `"0,10,10,0"` violates only the Y order and returns 0. -/
theorem c7_order_check_distinct_failures_witness :
    (parse_bbox (String.toList "10,0,0,10") geoDefault).1 = 1 ∧
    (parse_bbox (String.toList "0,10,10,0") geoDefault).1 = 0 := by
  refine ⟨?_, ?_⟩
  · exact (c7_order_check_distinct_failures (String.toList "10,0,0,10") geoDefault
      ⟨10, 0, 0, 10⟩ (by decide)).2.1 (by decide)
  · exact (c7_order_check_distinct_failures (String.toList "0,10,10,0") geoDefault
      ⟨0, 10, 10, 0⟩ (by decide)).2.2 (by decide) (by decide)

/-- Claim C6.  The output-size clamp is all-or-nothing: a parsed pair
with both components at most 2048 is used unchanged, and a pair with
either component above 2048 is reset to exactly 1024x1024; moreover the
clamped pair is exactly what `get_image` hands to the translator as
`-outsize` (shown on the Single-mode path with no bbox parameter). -/
theorem c6_size_clamp_all_or_nothing :
    (∀ w h : Int, w ≤ 2048 → h ≤ 2048 → clampSize w h = (w, h)) ∧
    (∀ w h : Int, w > 2048 ∨ h > 2048 → clampSize w h = (1024, 1024)) ∧
    (∀ world st r w h, st.dataset.type = 0 → r.size ≠ [] →
      sscanf_u2 r.size = some (w, h) → r.bbox = [] →
      (get_image world st r).2.1 =
        Outcome.ok (clampSize w h).1 (clampSize w h).2
          (WindowSpec.projwin (-180) 90 180 (-90))) := by
  refine ⟨?_, ?_, ?_⟩
  · intro w h hw hh
    unfold clampSize
    rw [if_neg (by omega : ¬(w > 2048 ∨ h > 2048))]
  · intro w h hor
    unfold clampSize
    rw [if_pos hor]
  · intro world st r w h hty hsz hscan hbb
    unfold get_image
    rw [if_neg hsz, hscan]
    simp [hbb, hty, geoDefault]

/-- Claim C6 (witness).  `512,512` passes unchanged; `3000,10` resets to
`1024,1024`; and a Single-mode request with `size=512,512` and no bbox
reaches the translator with `-outsize 512 512`. -/
theorem c6_size_clamp_all_or_nothing_witness :
    clampSize 512 512 = (512, 512) ∧
    clampSize 3000 10 = (1024, 1024) ∧
    (get_image (fun _ => none) ⟨⟨none, "f.tif", 0⟩, ⟨"", ""⟩⟩
        ⟨String.toList "512,512", [], []⟩).2.1 =
      Outcome.ok (clampSize 512 512).1 (clampSize 512 512).2
        (WindowSpec.projwin (-180) 90 180 (-90)) := by
  refine ⟨c6_size_clamp_all_or_nothing.1 512 512 (by decide) (by decide),
          c6_size_clamp_all_or_nothing.2.1 3000 10 (by decide),
          c6_size_clamp_all_or_nothing.2.2 (fun _ => none) ⟨⟨none, "f.tif", 0⟩, ⟨"", ""⟩⟩
            ⟨String.toList "512,512", [], []⟩ 512 512 (by decide) (by decide)
            (by decide) (by decide)⟩

end Gigi

namespace Gigi

/-- Reduction of `get_image` along the DynamicID path: once the size
parses, the bbox parses to four values, the mode is dynamic with a
configured prefix, a nonempty `ID` resolves to an open raster of size
`W x H`, and the replacement guard `bbox[0] == -180 && bbox[1] == 180`
does not fire, the outcome is decided by the range check on the
truncated box. -/
lemma get_image_dynamic_cases (world : String → Option Raster) (st : ServerState)
    (r : Req) (w h : Int) (bb : BBox) (W H : Int)
    (hty : st.dataset.type ≠ 0) (hpre : st.dynconf.pre ≠ "")
    (hs1 : r.size ≠ []) (hscan : sscanf_u2 r.size = some (w, h))
    (hbbne : r.bbox ≠ []) (hp : parse_bbox r.bbox geoDefault = (4, bb))
    (hid : r.id ≠ [])
    (hopen : (Gdataset.openDS world st.dataset
      (st.dynconf.pre ++ String.mk r.id ++ st.dynconf.suf)).1.pds = some ⟨W, H⟩)
    (hnot : ¬(bb.b0 = -180 ∧ bb.b1 = 180)) :
    (get_image world st r).2.1 =
      if (truncBBox bb).b0 < 0 ∨ (truncBBox bb).b1 < 0 ∨
         (truncBBox bb).b2 > (W : ℚ) ∨ (truncBBox bb).b3 > (H : ℚ)
      then Outcome.err 400 "Malformed bbox"
      else Outcome.ok (clampSize w h).1 (clampSize w h).2
        (WindowSpec.srcwin (truncBBox bb).b0 ((H : ℚ) - (truncBBox bb).b3)
          ((truncBBox bb).b2 - (truncBBox bb).b0)
          ((truncBBox bb).b3 - (truncBBox bb).b1)) := by
  unfold get_image
  rw [if_neg hs1, hscan]
  dsimp only
  rw [if_neg (show ¬(r.bbox ≠ [] ∧ (parse_bbox r.bbox geoDefault).1 ≠ 4) by simp [hp]),
      if_neg hty, if_pos hpre, if_neg hid, if_neg hbbne, hp]
  dsimp only
  rw [hopen]
  dsimp only
  rw [if_neg hnot]
  by_cases hc : (truncBBox bb).b0 < 0 ∨ (truncBBox bb).b1 < 0 ∨
      (truncBBox bb).b2 > (W : ℚ) ∨ (truncBBox bb).b3 > (H : ℚ)
  · rw [if_pos hc, if_pos hc]
    simp [ret_error, html_errors]
  · rw [if_neg hc, if_neg hc]

/-- Claim C4 (counterexample).  With a 100x100 raster in DynamicID mode:
the bbox `-0.5,0,10,10` is accepted and served, because
`static_cast<int>` truncates `-0.5` to `0` (flooring would give
`-1 < 0` and mandate rejection); and a genuinely out-of-range bbox
`0,0,200,10` is rejected with message "Malformed bbox", not
"Bad bbox values". -/
theorem c4_trunc_message_counterexample :
    (get_image (fun p => if p = "pA" then some ⟨100, 100⟩ else none)
        ⟨⟨none, "", 1⟩, ⟨"p", ""⟩⟩
        ⟨String.toList "512,512", String.toList "-0.5,0,10,10", String.toList "A"⟩).2.1 =
      Outcome.ok 512 512 (WindowSpec.srcwin 0 90 10 10) ∧
    (get_image (fun p => if p = "pA" then some ⟨100, 100⟩ else none)
        ⟨⟨none, "", 1⟩, ⟨"p", ""⟩⟩
        ⟨String.toList "512,512", String.toList "0,0,200,10", String.toList "A"⟩).2.1 =
      Outcome.err 400 "Malformed bbox" ∧
    (get_image (fun p => if p = "pA" then some ⟨100, 100⟩ else none)
        ⟨⟨none, "", 1⟩, ⟨"p", ""⟩⟩
        ⟨String.toList "512,512", String.toList "0,0,200,10", String.toList "A"⟩).2.1 ≠
      Outcome.err 400 "Bad bbox values" := by
  refine ⟨?_, by decide, by decide⟩
  have h := get_image_dynamic_cases (fun p => if p = "pA" then some ⟨100, 100⟩ else none)
      ⟨⟨none, "", 1⟩, ⟨"p", ""⟩⟩
      ⟨String.toList "512,512", String.toList "-0.5,0,10,10", String.toList "A"⟩
      512 512 ⟨mkRat (-1) 2, 0, 10, 10⟩ 100 100
      (by decide) (by decide) (by decide) (by decide) (by decide) (by decide)
      (by decide) (by decide) (by decide)
  rw [if_neg (by decide)] at h
  have ht : truncBBox ⟨mkRat (-1) 2, 0, 10, 10⟩ = ⟨0, 0, 10, 10⟩ := by decide
  rw [ht] at h
  norm_num [clampSize] at h
  exact h

/-- Claim C4 (amended).  On the DynamicID path with an open raster of
size `W x H` and a successfully parsed bbox that is not caught by the
(never default-matching) replacement guard, the four components are
truncated toward zero (C `static_cast<int>`, not floor), and the request
is rejected — with status 400 and message "Malformed bbox", not "Bad
bbox values" — exactly when `minX < 0`, `minY < 0`, `maxX > W` or
`maxY > H` holds of the truncated box; a box within those bounds is not
rejected. -/
theorem c4_pixel_bbox_truncate_reject :
    ∀ world st r w h bb W H, st.dataset.type ≠ 0 → st.dynconf.pre ≠ "" →
      r.size ≠ [] → sscanf_u2 r.size = some (w, h) →
      r.bbox ≠ [] → parse_bbox r.bbox geoDefault = (4, bb) →
      r.id ≠ [] →
      (Gdataset.openDS world st.dataset
        (st.dynconf.pre ++ String.mk r.id ++ st.dynconf.suf)).1.pds = some ⟨W, H⟩ →
      ¬(bb.b0 = -180 ∧ bb.b1 = 180) →
      ((get_image world st r).2.1 = Outcome.err 400 "Malformed bbox" ↔
        ((truncBBox bb).b0 < 0 ∨ (truncBBox bb).b1 < 0 ∨
         (truncBBox bb).b2 > (W : ℚ) ∨ (truncBBox bb).b3 > (H : ℚ))) := by
  intro world st r w h bb W H hty hpre hs1 hscan hbbne hp hid hopen hnot
  rw [get_image_dynamic_cases world st r w h bb W H hty hpre hs1 hscan hbbne hp hid
      hopen hnot]
  by_cases hc : (truncBBox bb).b0 < 0 ∨ (truncBBox bb).b1 < 0 ∨
      (truncBBox bb).b2 > (W : ℚ) ∨ (truncBBox bb).b3 > (H : ℚ)
  · rw [if_pos hc]
    simp [hc]
  · rw [if_neg hc]
    simp [hc]

/-- Claim C4 (witness for the amended theorem).  The bbox `0,0,200,10`
against a 100x100 raster trips the range check and yields the 400
"Malformed bbox" response. -/
theorem c4_pixel_bbox_truncate_reject_witness :
    (get_image (fun p => if p = "pA" then some ⟨100, 100⟩ else none)
        ⟨⟨none, "", 1⟩, ⟨"p", ""⟩⟩
        ⟨String.toList "512,512", String.toList "0,0,200,10", String.toList "A"⟩).2.1 =
      Outcome.err 400 "Malformed bbox" :=
  (c4_pixel_bbox_truncate_reject
      (fun p => if p = "pA" then some ⟨100, 100⟩ else none)
      ⟨⟨none, "", 1⟩, ⟨"p", ""⟩⟩
      ⟨String.toList "512,512", String.toList "0,0,200,10", String.toList "A"⟩
      512 512 ⟨0, 0, 200, 10⟩ 100 100
      (by decide) (by decide) (by decide) (by decide) (by decide) (by decide)
      (by decide) (by decide) (by decide)).mpr (by decide)

end Gigi

namespace Gigi

/-- Claim C2 (counterexample).  A request with no `size` parameter is
answered with status 404, not 400: `ret_error` is called without an
explicit code and its C default argument is 404 (src/gigi.cpp:382,468). -/
theorem c2_missing_size_counterexample :
    (get_image (fun _ => none) ⟨⟨none, "", 0⟩, ⟨"", ""⟩⟩ ⟨[], [], []⟩).2.1 =
      Outcome.err 404 "Missing size parameter" ∧
    (get_image (fun _ => none) ⟨⟨none, "", 0⟩, ⟨"", ""⟩⟩ ⟨[], [], []⟩).2.1 ≠
      Outcome.err 400 "Missing size parameter" := by
  decide

/-- Claim C2 (amended).  The status codes actually produced are: 404 for
a missing `size`, an unparseable `size` and a malformed `bbox` (the
`ret_error` default), and 400 for a missing `ID` in DynamicID mode and
for a pixel-space bbox outside the raster extents (explicit code). -/
theorem c2_error_status_codes :
    (∀ world st r, r.size = [] →
      (get_image world st r).2.1 = Outcome.err 404 "Missing size parameter") ∧
    (∀ world st r, r.size ≠ [] → sscanf_u2 r.size = none →
      (get_image world st r).2.1 = Outcome.err 404 "Can't parse size") ∧
    (∀ world st r w h, r.size ≠ [] → sscanf_u2 r.size = some (w, h) →
      r.bbox ≠ [] → (parse_bbox r.bbox geoDefault).1 ≠ 4 →
      (get_image world st r).2.1 = Outcome.err 404 "Can't parse bbox") ∧
    (∀ world st r w h, r.size ≠ [] → sscanf_u2 r.size = some (w, h) →
      ¬(r.bbox ≠ [] ∧ (parse_bbox r.bbox geoDefault).1 ≠ 4) →
      st.dataset.type ≠ 0 → st.dynconf.pre ≠ "" → r.id = [] →
      (get_image world st r).2.1 = Outcome.err 400 "Missing ID element") ∧
    (∀ world st r w h bb W H, r.size ≠ [] → sscanf_u2 r.size = some (w, h) →
      r.bbox ≠ [] → parse_bbox r.bbox geoDefault = (4, bb) →
      st.dataset.type ≠ 0 → st.dynconf.pre ≠ "" → r.id ≠ [] →
      (Gdataset.openDS world st.dataset
        (st.dynconf.pre ++ String.mk r.id ++ st.dynconf.suf)).1.pds = some ⟨W, H⟩ →
      ¬(bb.b0 = -180 ∧ bb.b1 = 180) →
      ((truncBBox bb).b0 < 0 ∨ (truncBBox bb).b1 < 0 ∨
       (truncBBox bb).b2 > (W : ℚ) ∨ (truncBBox bb).b3 > (H : ℚ)) →
      (get_image world st r).2.1 = Outcome.err 400 "Malformed bbox") := by
  refine ⟨?_, ?_, ?_, ?_, ?_⟩
  · intro world st r hs
    unfold get_image
    rw [if_pos hs]
    simp [ret_error, html_errors]
  · intro world st r hs hscan
    unfold get_image
    rw [if_neg hs, hscan]
    simp [ret_error, html_errors]
  · intro world st r w h hs hscan hbbne hcnt
    unfold get_image
    rw [if_neg hs, hscan]
    dsimp only
    rw [if_pos ⟨hbbne, hcnt⟩]
    simp [ret_error, html_errors]
  · intro world st r w h hs hscan hnb hty hpre hid
    unfold get_image
    rw [if_neg hs, hscan]
    dsimp only
    rw [if_neg hnb, if_neg hty, if_pos hpre, if_pos hid]
    simp [ret_error, html_errors]
  · intro world st r w h bb W H hs hscan hbbne hp hty hpre hid hopen hnot htrip
    rw [get_image_dynamic_cases world st r w h bb W H hty hpre hs hscan hbbne hp hid
        hopen hnot]
    rw [if_pos htrip]

/-- Claim C2 (witness for the amended theorem).  One concrete request
per failure class, with the status each actually receives. -/
theorem c2_error_status_codes_witness :
    (get_image (fun _ => none) ⟨⟨none, "", 0⟩, ⟨"", ""⟩⟩ ⟨[], [], []⟩).2.1 =
      Outcome.err 404 "Missing size parameter" ∧
    (get_image (fun _ => none) ⟨⟨none, "", 0⟩, ⟨"", ""⟩⟩
        ⟨String.toList "x", [], []⟩).2.1 = Outcome.err 404 "Can't parse size" ∧
    (get_image (fun _ => none) ⟨⟨none, "", 0⟩, ⟨"", ""⟩⟩
        ⟨String.toList "512,512", String.toList "a,b", []⟩).2.1 =
      Outcome.err 404 "Can't parse bbox" ∧
    (get_image (fun _ => none) ⟨⟨none, "", 1⟩, ⟨"p", ""⟩⟩
        ⟨String.toList "512,512", [], []⟩).2.1 =
      Outcome.err 400 "Missing ID element" ∧
    (get_image (fun p => if p = "pA" then some ⟨100, 100⟩ else none)
        ⟨⟨none, "", 1⟩, ⟨"p", ""⟩⟩
        ⟨String.toList "512,512", String.toList "0,0,200,10", String.toList "A"⟩).2.1 =
      Outcome.err 400 "Malformed bbox" := by
  refine ⟨?_, ?_, ?_, ?_, ?_⟩
  · exact c2_error_status_codes.1 (fun _ => none) ⟨⟨none, "", 0⟩, ⟨"", ""⟩⟩
      ⟨[], [], []⟩ (by decide)
  · exact c2_error_status_codes.2.1 (fun _ => none) ⟨⟨none, "", 0⟩, ⟨"", ""⟩⟩
      ⟨String.toList "x", [], []⟩ (by decide) (by decide)
  · exact c2_error_status_codes.2.2.1 (fun _ => none) ⟨⟨none, "", 0⟩, ⟨"", ""⟩⟩
      ⟨String.toList "512,512", String.toList "a,b", []⟩ 512 512
      (by decide) (by decide) (by decide) (by decide)
  · exact c2_error_status_codes.2.2.2.1 (fun _ => none) ⟨⟨none, "", 1⟩, ⟨"p", ""⟩⟩
      ⟨String.toList "512,512", [], []⟩ 512 512
      (by decide) (by decide) (by decide) (by decide) (by decide) (by decide)
  · exact c2_error_status_codes.2.2.2.2
      (fun p => if p = "pA" then some ⟨100, 100⟩ else none)
      ⟨⟨none, "", 1⟩, ⟨"p", ""⟩⟩
      ⟨String.toList "512,512", String.toList "0,0,200,10", String.toList "A"⟩
      512 512 ⟨0, 0, 200, 10⟩ 100 100
      (by decide) (by decide) (by decide) (by decide) (by decide) (by decide)
      (by decide) (by decide) (by decide) (by decide)

end Gigi

namespace Gigi

/-- Claim C9.  The crop window handed to `GDALTranslate` is: in Single
mode, a `-projwin` geographic window with the bbox passed through
unchanged in the order `(minX, maxY, maxX, minY)` (src/gigi.cpp:498-502);
in the pixel-space DynamicID mode, a `-srcwin` source window
`(minX, rasterHeight - maxY, maxX - minX, maxY - minY)` computed from
the truncated bbox, flipping the Y axis (src/gigi.cpp:560-564). -/
theorem c9_translate_window :
    (∀ world st r w h bb, st.dataset.type = 0 → r.size ≠ [] →
      sscanf_u2 r.size = some (w, h) →
      (r.bbox = [] ∧ bb = geoDefault) ∨
        (r.bbox ≠ [] ∧ parse_bbox r.bbox geoDefault = (4, bb)) →
      (get_image world st r).2.1 =
        Outcome.ok (clampSize w h).1 (clampSize w h).2
          (WindowSpec.projwin bb.b0 bb.b3 bb.b2 bb.b1)) ∧
    (∀ world st r w h bb W H, st.dataset.type ≠ 0 → st.dynconf.pre ≠ "" →
      r.size ≠ [] → sscanf_u2 r.size = some (w, h) →
      r.bbox ≠ [] → parse_bbox r.bbox geoDefault = (4, bb) → r.id ≠ [] →
      (Gdataset.openDS world st.dataset
        (st.dynconf.pre ++ String.mk r.id ++ st.dynconf.suf)).1.pds = some ⟨W, H⟩ →
      ¬(bb.b0 = -180 ∧ bb.b1 = 180) →
      ¬((truncBBox bb).b0 < 0 ∨ (truncBBox bb).b1 < 0 ∨
        (truncBBox bb).b2 > (W : ℚ) ∨ (truncBBox bb).b3 > (H : ℚ)) →
      (get_image world st r).2.1 =
        Outcome.ok (clampSize w h).1 (clampSize w h).2
          (WindowSpec.srcwin (truncBBox bb).b0 ((H : ℚ) - (truncBBox bb).b3)
            ((truncBBox bb).b2 - (truncBBox bb).b0)
            ((truncBBox bb).b3 - (truncBBox bb).b1))) := by
  constructor
  · intro world st r w h bb hty hs1 hscan hbb
    unfold get_image
    rw [if_neg hs1, hscan]
    dsimp only
    rcases hbb with ⟨hbe, rfl⟩ | ⟨hbne, hp⟩
    · rw [if_neg (show ¬(r.bbox ≠ [] ∧ (parse_bbox r.bbox geoDefault).1 ≠ 4)
          by simp [hbe]), if_pos hbe, if_pos hty]
    · rw [if_neg (show ¬(r.bbox ≠ [] ∧ (parse_bbox r.bbox geoDefault).1 ≠ 4)
          by simp [hp]), if_neg hbne, hp, if_pos hty]
  · intro world st r w h bb W H hty hpre hs1 hscan hbbne hp hid hopen hnot htrip
    rw [get_image_dynamic_cases world st r w h bb W H hty hpre hs1 hscan hbbne hp hid
        hopen hnot]
    rw [if_neg htrip]

/-- Claim C9 (witness).  Single mode with bbox `0,0,10,10` yields
`-projwin 0 10 10 0`; DynamicID mode with the same bbox against a
100x100 raster yields `-srcwin 0 90 10 10`. -/
theorem c9_translate_window_witness :
    (get_image (fun _ => none) ⟨⟨none, "f.tif", 0⟩, ⟨"", ""⟩⟩
        ⟨String.toList "512,512", String.toList "0,0,10,10", []⟩).2.1 =
      Outcome.ok 512 512 (WindowSpec.projwin 0 10 10 0) ∧
    (get_image (fun p => if p = "pA" then some ⟨100, 100⟩ else none)
        ⟨⟨none, "", 1⟩, ⟨"p", ""⟩⟩
        ⟨String.toList "512,512", String.toList "0,0,10,10", String.toList "A"⟩).2.1 =
      Outcome.ok 512 512 (WindowSpec.srcwin 0 90 10 10) := by
  constructor
  · have h := c9_translate_window.1 (fun _ => none) ⟨⟨none, "f.tif", 0⟩, ⟨"", ""⟩⟩
        ⟨String.toList "512,512", String.toList "0,0,10,10", []⟩ 512 512 ⟨0, 0, 10, 10⟩
        (by decide) (by decide) (by decide) (Or.inr ⟨by decide, by decide⟩)
    rw [h]
    decide
  · have h := c9_translate_window.2
        (fun p => if p = "pA" then some ⟨100, 100⟩ else none)
        ⟨⟨none, "", 1⟩, ⟨"p", ""⟩⟩
        ⟨String.toList "512,512", String.toList "0,0,10,10", String.toList "A"⟩
        512 512 ⟨0, 0, 10, 10⟩ 100 100
        (by decide) (by decide) (by decide) (by decide) (by decide) (by decide)
        (by decide) (by decide) (by decide) (by decide)
    rw [h]
    have ht : truncBBox ⟨0, 0, 10, 10⟩ = ⟨0, 0, 10, 10⟩ := by decide
    rw [ht]
    norm_num [clampSize]

end Gigi

namespace Gigi

/-- Claim C5.  The dataset slot is a single-slot cache keyed by path
(src/gigi.cpp:255-280): opening the currently cached path returns the
state unchanged with no library call (the handle is reused, no reopen);
opening a different path first closes the live handle (the `close` event
precedes the `openAttempt` event) or goes straight to the open attempt
when no handle is live; and along any sequence of opens, at every
intermediate point, at most one raster handle is live. -/
theorem c5_single_slot_cache :
    (∀ world g f, f = g.name → Gdataset.openDS world g f = (g, [])) ∧
    (∀ world g f, f ≠ g.name → g.pds.isSome →
      (Gdataset.openDS world g f).2 =
        [DsEv.close g.name, DsEv.openAttempt f (world f).isSome]) ∧
    (∀ world g f, f ≠ g.name → g.pds = none →
      (Gdataset.openDS world g f).2 = [DsEv.openAttempt f (world f).isSome]) ∧
    (∀ world g fs p, p <+: (openSeq world g fs).2 →
      0 ≤ handles g + liveCount p ∧ handles g + liveCount p ≤ 1) := by
  refine ⟨?_, ?_, ?_, fun world g fs p hp => openSeq_live_bound world fs g p hp⟩
  · intro world g f hf
    have h1 := openDS_fst world g f
    have h2 := openDS_snd world g f
    rw [if_pos hf] at h1 h2
    exact Prod.ext h1 h2
  · intro world g f hf hs
    rw [openDS_snd, if_neg hf, if_pos hs]
  · intro world g f hf hn
    rw [openDS_snd, if_neg hf, if_neg (by simp [hn])]

/-- Claim C5 (witness).  Reopening the cached path `"a"` is a no-op with
an empty trace; opening `"b"` over a live handle closes `"a"` first;
opening `"b"` with no live handle only attempts the open; and along the
sequence `["a", "b"]` from a fresh state the live-handle count after the
trace prefix `[openAttempt "a" true, close "a"]` is between 0 and 1. -/
theorem c5_single_slot_cache_witness :
    Gdataset.openDS (fun p => if p = "a" then some ⟨1, 1⟩ else none)
      ⟨some ⟨1, 1⟩, "a", 0⟩ "a" = (⟨some ⟨1, 1⟩, "a", 0⟩, []) ∧
    (Gdataset.openDS (fun p => if p = "a" then some ⟨1, 1⟩ else none)
      ⟨some ⟨1, 1⟩, "a", 0⟩ "b").2 =
      [DsEv.close "a", DsEv.openAttempt "b"
        ((fun p => if p = "a" then some (⟨1, 1⟩ : Raster) else none) "b").isSome] ∧
    (Gdataset.openDS (fun p => if p = "a" then some ⟨1, 1⟩ else none)
      ⟨none, "", 0⟩ "b").2 =
      [DsEv.openAttempt "b"
        ((fun p => if p = "a" then some (⟨1, 1⟩ : Raster) else none) "b").isSome] ∧
    (0 ≤ handles ⟨none, "", 0⟩ +
        liveCount [DsEv.openAttempt "a" true, DsEv.close "a"] ∧
      handles ⟨none, "", 0⟩ +
        liveCount [DsEv.openAttempt "a" true, DsEv.close "a"] ≤ 1) := by
  refine ⟨?_, ?_, ?_, ?_⟩
  · exact c5_single_slot_cache.1 (fun p => if p = "a" then some ⟨1, 1⟩ else none)
      ⟨some ⟨1, 1⟩, "a", 0⟩ "a" (by decide)
  · exact c5_single_slot_cache.2.1 (fun p => if p = "a" then some ⟨1, 1⟩ else none)
      ⟨some ⟨1, 1⟩, "a", 0⟩ "b" (by decide) (by decide)
  · exact c5_single_slot_cache.2.2.1 (fun p => if p = "a" then some ⟨1, 1⟩ else none)
      ⟨none, "", 0⟩ "b" (by decide) (by decide)
  · exact c5_single_slot_cache.2.2.2 (fun p => if p = "a" then some ⟨1, 1⟩ else none)
      ⟨none, "", 0⟩ ["a", "b"] [DsEv.openAttempt "a" true, DsEv.close "a"]
      (by decide)

/-- Claim C10.  After an open of path `p` fails, `p` stays recorded as
the cache key with a null handle (`gdataset::clear` only erases the name
when a handle is live, and `open` stores the name before attempting);
a later open of the same `p` hits the same-name branch and returns
failure with no open attempt; only after an intervening open of a
different path `q` does an open of `p` attempt the library again
(src/gigi.cpp:256-266). -/
theorem c10_failed_open_cached :
    ∀ world g p q, p ≠ g.name → world p = none → q ≠ p →
      ((Gdataset.openDS world g p).1.pds = none ∧
       (Gdataset.openDS world g p).1.name = p) ∧
      Gdataset.openDS world (Gdataset.openDS world g p).1 p =
        ((Gdataset.openDS world g p).1, []) ∧
      DsEv.openAttempt p false ∈
        (Gdataset.openDS world
          (Gdataset.openDS world (Gdataset.openDS world g p).1 q).1 p).2 := by
  intro world g p q hne hw hqp
  have h1 : (Gdataset.openDS world g p).1 = ⟨none, p, g.type⟩ := by
    rw [openDS_fst, if_neg hne, hw]
  refine ⟨⟨by rw [h1], by rw [h1]⟩, ?_, ?_⟩
  · rw [h1]
    unfold Gdataset.openDS
    rw [if_pos rfl]
  · have h2 : (Gdataset.openDS world (⟨none, p, g.type⟩ : Gdataset) q).1 =
        ⟨world q, q, g.type⟩ := by
      rw [openDS_fst, if_neg (show q ≠ (⟨none, p, g.type⟩ : Gdataset).name from hqp)]
    rw [h1, h2, openDS_snd,
        if_neg (show p ≠ (⟨world q, q, g.type⟩ : Gdataset).name from Ne.symm hqp)]
    by_cases hq : ((⟨world q, q, g.type⟩ : Gdataset).pds).isSome
    · rw [if_pos hq, hw]
      simp
    · rw [if_neg hq, hw]
      simp

/-- Claim C10 (witness).  From a fresh state, opening `"a"` against a
world with no datasets fails and records `"a"`; reopening `"a"` is an
immediate failure with no attempt; after opening `"b"`, a new open of
`"a"` attempts the library again. -/
theorem c10_failed_open_cached_witness :
    ((Gdataset.openDS (fun _ => none) ⟨none, "", 0⟩ "a").1.pds = none ∧
     (Gdataset.openDS (fun _ => none) ⟨none, "", 0⟩ "a").1.name = "a") ∧
    Gdataset.openDS (fun _ => none)
        (Gdataset.openDS (fun _ => none) ⟨none, "", 0⟩ "a").1 "a" =
      ((Gdataset.openDS (fun _ => none) ⟨none, "", 0⟩ "a").1, []) ∧
    DsEv.openAttempt "a" false ∈
      (Gdataset.openDS (fun _ => none)
        (Gdataset.openDS (fun _ => none)
          (Gdataset.openDS (fun _ => none) ⟨none, "", 0⟩ "a").1 "b").1 "a").2 :=
  c10_failed_open_cached (fun _ => none) ⟨none, "", 0⟩ "a" "b"
    (by decide) rfl (by decide)

end Gigi

namespace Gigi

/-- Claim C8 (counterexample).  If the Single-mode raster fails to open
at startup, `configure` returns false and `realmain` exits with code 1
before the accept loop — no request is ever served, so no request
receives a 500.  Moreover, even evaluated on a Single-mode state whose
handle is null, `get_image` follows the translate path rather than
producing a 500: the "Configuration failure" branch requires a dynamic
dataset type. -/
theorem c8_startup_failure_counterexample :
    realmainStartup (fun _ => none) ⟨"data.tif", "", ""⟩ = StartupResult.exited 1 ∧
    (get_image (fun _ => none) ⟨⟨none, "data.tif", 0⟩, ⟨"", ""⟩⟩
        ⟨String.toList "512,512", [], []⟩).2.1 =
      Outcome.ok 512 512 (WindowSpec.projwin (-180) 90 180 (-90)) := by
  decide

/-- Claim C8 (amended).  When the configured Single-mode raster fails to
open, startup fails and the process exits with code 1 before the accept
loop, so no request is served at all; the per-request 500
"Configuration failure" response arises instead on every validated
request when the dataset is dynamic but no prefix is configured
(src/gigi.cpp:352-357,592-594,650-655). -/
theorem c8_single_startup_failure_exits :
    (∀ world cfg, cfg.filename ≠ "" → world cfg.filename = none →
      realmainStartup world cfg = StartupResult.exited 1) ∧
    (∀ world st r w h, st.dataset.type ≠ 0 → st.dynconf.pre = "" →
      r.size ≠ [] → sscanf_u2 r.size = some (w, h) →
      ¬(r.bbox ≠ [] ∧ (parse_bbox r.bbox geoDefault).1 ≠ 4) →
      (get_image world st r).2.1 = Outcome.err 500 "Configuration failure") := by
  constructor
  · intro world cfg hcfg hw
    unfold realmainStartup configure
    rw [if_pos hcfg]
    dsimp only
    rw [openDS_fst, if_neg (show cfg.filename ≠ initState.dataset.name from hcfg), hw]
    rfl
  · intro world st r w h hty hpre hs1 hscan hnb
    unfold get_image
    rw [if_neg hs1, hscan]
    dsimp only
    rw [if_neg hnb, if_neg hty, if_neg (show ¬st.dynconf.pre ≠ "" by simp [hpre])]
    simp [ret_error, html_errors]

/-- Claim C8 (witness for the amended theorem).  A concrete failing
Single-mode startup, and a concrete dynamic-mode request that receives
the 500 "Configuration failure". -/
theorem c8_single_startup_failure_exits_witness :
    realmainStartup (fun _ => none) ⟨"f.tif", "", ""⟩ = StartupResult.exited 1 ∧
    (get_image (fun _ => none) ⟨⟨none, "", 1⟩, ⟨"", ""⟩⟩
        ⟨String.toList "512,512", [], []⟩).2.1 =
      Outcome.err 500 "Configuration failure" := by
  constructor
  · exact c8_single_startup_failure_exits.1 (fun _ => none) ⟨"f.tif", "", ""⟩
      (by decide) rfl
  · exact c8_single_startup_failure_exits.2 (fun _ => none) ⟨⟨none, "", 1⟩, ⟨"", ""⟩⟩
      ⟨String.toList "512,512", [], []⟩ 512 512
      (by decide) rfl (by decide) (by decide) (by decide)

end Gigi
